import Mathlib

/-!
Shallow embedding of the mpdred/healthcheck Go library.

The repository contains two generations of the core:
  - a handler-centric implementation (namespace V1 below): Probe carries an
    IsInformationalOnly flag, ExecutionResult carries Err as a string, and the
    HTTP handler (handler.executionResults) aggregates results and drives a
    Prometheus gauge directly;
  - a service-centric implementation (namespace V2 below): Probe carries a
    Health field, ExecutionResult carries Err as a Go error, the probe store
    (inMemoryProbeStore) keeps the registry, service.executeProbes runs the
    round and sets Health, and prometheusMetricsService.UpdateGauge drives the
    gauge.

Go machine types are embedded as follows: strings are String, a Go error is
Option GoError (none = nil), a map[string]Probe is an association list whose
insert operation replaces the entry of an existing key, and the Prometheus
GaugeVec is an association list from label pairs to the last value Set for
that label pair.  Concurrency in the fan-out/fan-in executor is embedded
relationally: the channel delivers exactly one result per launched probe in an
arbitrary arrival order, so an execution outcome is any permutation of the
per-probe results; the deterministic function gives the input-order schedule.
-/

abbrev GoError := String

abbrev ProbeKind := String

abbrev ProbeHealthStatus := String

/-- ProbeKind constants of the handler-centric generation (probe.go). -/
def Health : ProbeKind := "health"

def Liveness : ProbeKind := "liveness"

def Readiness : ProbeKind := "readiness"

def Startup : ProbeKind := "startup"

/-- ProbeKind constants of the service-centric generation (part_008). -/
def LivenessProbeKind : ProbeKind := "liveness"

def ReadinessProbeKind : ProbeKind := "readiness"

def StartupProbeKind : ProbeKind := "startup"

def CustomProbeKind : ProbeKind := "custom"

def HealthyStatus : ProbeHealthStatus := "healthy"

def UnhealthyStatus : ProbeHealthStatus := "unhealthy"

/-- The relevant observable of a context.Context: the engine never inspects
it, it only hands it to each check function. -/
structure GoCtx where
  cancelled : Bool := false

/-- ProbeCheckFn: func(context.Context) error; none embeds a nil error. -/
abbrev ProbeCheckFn := GoCtx → Option GoError

/-- The Prometheus GaugeVec state: for each (kind, probe) label pair the most
recently Set value.  gaugeSet prepends, gaugeGet reads the newest entry. -/
abbrev GaugeMap := List ((String × String) × Nat)

def gaugeSet (k : String × String) (v : Nat) (g : GaugeMap) : GaugeMap :=
  (k, v) :: g

def gaugeGet (k : String × String) (g : GaugeMap) : Option Nat :=
  (g.find? (fun e => e.1 == k)).map (fun e => e.2)

namespace V1

/-- Probe of the handler-centric generation (src/pkg/healthcheck/probe.go):
checkFn, Kind, Name, IsInformationalOnly. -/
structure Probe where
  checkFn : ProbeCheckFn
  Kind : ProbeKind
  Name : String
  IsInformationalOnly : Bool

/-- ExecutionResult of the handler-centric generation: Err is a string,
empty on success (the executor stores err.Error() only when err was non-nil). -/
structure ExecutionResult where
  Probe : Probe
  Err : String

/-- The handler registry h.probes : map[string]Probe. -/
abbrev Registry := List (String × Probe)

def lookupProbe (name : String) (reg : Registry) : Option Probe :=
  (reg.find? (fun e => e.1 == name)).map (fun e => e.2)

/-- handler.GetProbe (part_010): p, ok := h.probes[name]; if !ok return nil;
return &p. -/
def GetProbe (name : String) (reg : Registry) : Option Probe :=
  match lookupProbe name reg with
  | some p => some p
  | none => none

/-- handler.GetProbesByKind (part_010): every probe when kind == Health,
otherwise only probes whose Kind matches. -/
def GetProbesByKind (kind : ProbeKind) : Registry → List Probe
  | [] => []
  | e :: rest =>
    if kind == Health then e.2 :: GetProbesByKind kind rest
    else if e.2.Kind == kind then e.2 :: GetProbesByKind kind rest
    else GetProbesByKind kind rest

/-- The loop body of handler.executionResults (part_010 lines 118-152): on a
non-empty Err the gauge for (p.Kind, p.Name) is Set to 1 and, when the probe
is not informational, hasAtLeastOneErr is latched and the iteration continues;
in every remaining case (success, or informational failure, which falls
through past the inner if) the same gauge is Set to 0. -/
def executionResultsLoop : List ExecutionResult → GaugeMap → Bool → GaugeMap × Bool
  | [], g, hasErr => (g, hasErr)
  | r :: rest, g, hasErr =>
    let p := r.Probe
    if r.Err != "" then
      let g1 := gaugeSet (p.Kind, p.Name) 1 g
      if !p.IsInformationalOnly then
        executionResultsLoop rest g1 true
      else
        executionResultsLoop rest (gaugeSet (p.Kind, p.Name) 0 g1) hasErr
    else
      executionResultsLoop rest (gaugeSet (p.Kind, p.Name) 0 g) hasErr

/-- Observable outcome of handler.executionResults: the final gauge state,
the HTTP status written (none when no WriteHeader call happened, as on the
kind == Health success path), and the returned slice (none embeds nil). -/
structure HandlerResponse where
  gauge : GaugeMap
  status : Option Nat
  ret : Option (List ExecutionResult)

/-- handler.executionResults (part_010): runs the gauge loop, then answers
503 with a nil slice when some non-informational probe failed; otherwise for
kind == Health it returns the full result slice without writing a status, and
for every other kind it writes 200 OK and returns the slice. -/
def executionResults (kind : ProbeKind) (rr : List ExecutionResult)
    (g : GaugeMap) : HandlerResponse :=
  let res := executionResultsLoop rr g false
  if res.2 then { gauge := res.1, status := some 503, ret := none }
  else if kind == Health then { gauge := res.1, status := none, ret := some rr }
  else { gauge := res.1, status := some 200, ret := some rr }

end V1

namespace V2

/-- Probe of the service-centric generation (part_008): CheckFn, Kind, Name
and the transient Health status (the Go zero value of the status string
is ""). -/
structure Probe where
  CheckFn : ProbeCheckFn
  Kind : ProbeKind
  Name : String
  Health : ProbeHealthStatus := ""

/-- Probe.Execute: err := p.CheckFn(ctx); return err. -/
def Probe.Execute (p : Probe) (ctx : GoCtx) : Option GoError :=
  p.CheckFn ctx

/-- ExecutionResult of the service-centric generation: Err is a Go error,
none embeds nil. -/
structure ExecutionResult where
  Probe : Probe
  Err : Option GoError := none

/-- The probes field of inMemoryProbeStore : map[string]Probe, embedded as an
association list whose insert replaces the entry of an existing key. -/
abbrev StoreMap := List (String × Probe)

/-- NewInMemoryProbeStore starts from an empty map. -/
def emptyStore : StoreMap := []

/-- One Go map assignment s.probes[name] = p: any existing entry for the key
is dropped and the new binding recorded. -/
def mapAssign (name : String) (p : Probe) (s : StoreMap) : StoreMap :=
  s.filter (fun e => !(e.1 == name)) ++ [(name, p)]

/-- inMemoryProbeStore.Add: for _, p := range probes s.probes[p.Name] = p. -/
def Add (probes : List Probe) (s : StoreMap) : StoreMap :=
  probes.foldl (fun s p => mapAssign p.Name p s) s

def mapLookup (name : String) (s : StoreMap) : Option Probe :=
  (s.find? (fun e => e.1 == name)).map (fun e => e.2)

/-- The Go zero value of Probe, produced by reading a missing map key.  The
zero value of the func field is nil; no claim ever executes the zero probe,
so its stand-in here is the trivially succeeding check. -/
def defaultProbe : Probe :=
  { CheckFn := fun _ => none, Kind := "", Name := "", Health := "" }

/-- inMemoryProbeStore.Get: p := s.probes[name]; return p — a missing key
yields the zero-valued Probe, not an absence marker. -/
def Get (name : String) (s : StoreMap) : Probe :=
  (mapLookup name s).getD defaultProbe

/-- inMemoryProbeStore.GetAll: the values of the map. -/
def GetAll (s : StoreMap) : List Probe :=
  s.map (fun e => e.2)

/-- inMemoryProbeStore.GetByKind: the loop skips every probe whose Kind
differs and appends the rest, i.e. it filters the values by Kind — with no
special case for any catch-all kind. -/
def GetByKind (kind : ProbeKind) (s : StoreMap) : List Probe :=
  (GetAll s).filter (fun p => p.Kind == kind)

/-- inMemoryProbeStore.Delete: for _, name := range names delete(s.probes,
name). -/
def Delete (names : List String) (s : StoreMap) : StoreMap :=
  names.foldl (fun s name => s.filter (fun e => !(e.1 == name))) s

/-- The body of one executor goroutine (executor.Execute): run the check and
pair the probe with the resulting error. -/
def executeOne (ctx : GoCtx) (p : Probe) : ExecutionResult :=
  { Probe := p, Err := p.Execute ctx }

/-- executor.Execute, deterministic input-order schedule: one result per
probe. -/
def Execute (ctx : GoCtx) (probes : List Probe) : List ExecutionResult :=
  probes.map (executeOne ctx)

/-- executor.Execute, all schedules: each goroutine sends exactly one result
into the channel and the collector drains the channel until the WaitGroup
closes it, so an observable output is any arrival-order permutation of the
per-probe results. -/
def ExecuteRel (ctx : GoCtx) (probes : List Probe)
    (out : List ExecutionResult) : Prop :=
  List.Perm out (Execute ctx probes)

/-- The body of one service.executeProbes goroutine: run the check, record
the error and set the snapshot Health to UnhealthyStatus exactly on a
non-nil error and to HealthyStatus otherwise. -/
def executeProbesOne (ctx : GoCtx) (p : Probe) : ExecutionResult :=
  match p.Execute ctx with
  | some e => { Probe := { p with Health := UnhealthyStatus }, Err := some e }
  | none => { Probe := { p with Health := HealthyStatus }, Err := none }

/-- service.executeProbes, deterministic input-order schedule. -/
def executeProbes (ctx : GoCtx) (probes : List Probe) : List ExecutionResult :=
  probes.map (executeProbesOne ctx)

/-- service.executeProbes, all schedules (same fan-out/fan-in shape as
executor.Execute). -/
def ExecuteProbesRel (ctx : GoCtx) (probes : List Probe)
    (out : List ExecutionResult) : Prop :=
  List.Perm out (executeProbes ctx probes)

/-- The probe selection of service.ExecuteProbesByKind: the catch-all
CustomProbeKind routes to GetAll, every other kind to GetByKind. -/
def probesForKind (kind : ProbeKind) (s : StoreMap) : List Probe :=
  if kind == CustomProbeKind then GetAll s else GetByKind kind s

/-- prometheusMetricsService.UpdateGauge: for each result, Set the
(kind, probe) gauge to 0 when the snapshot Health is HealthyStatus and to 1
when it is UnhealthyStatus (any other status leaves the gauge untouched).
The per-result goroutines write to independent labels; this is the
input-order interleaving. -/
def UpdateGauge (rr : List ExecutionResult) (g : GaugeMap) : GaugeMap :=
  rr.foldl
    (fun g e =>
      let p := e.Probe
      if p.Health == HealthyStatus then gaugeSet (p.Kind, p.Name) 0 g
      else if p.Health == UnhealthyStatus then gaugeSet (p.Kind, p.Name) 1 g
      else g)
    g

end V2

/-- The HTTP status produced by the handler of factories.getProbeExecutionFns
(factories/handler.go lines 43-80): walking the execution results, the first
one whose snapshot Health is UnhealthyStatus answers 503 and returns;
otherwise the handler answers 204 No Content. -/
def getProbeExecutionFnStatus : List V2.ExecutionResult → Nat
  | [] => 204
  | r :: rest =>
    if r.Probe.Health == UnhealthyStatus then 503
    else getProbeExecutionFnStatus rest

namespace V2Panic

/-- Outcome of running a piece of Go code that may panic. -/
inductive GoOutcome (α : Type) where
  | ok (a : α)
  | panicked (msg : String)

/-- A check function that may raise an unexpected runtime fault. -/
abbrev PanicCheckFn := GoCtx → GoOutcome (Option GoError)

/-- The service-generation Probe, with a check that may panic. -/
structure Probe where
  CheckFn : PanicCheckFn
  Kind : ProbeKind
  Name : String
  Health : ProbeHealthStatus := ""

structure ExecutionResult where
  Probe : Probe
  Err : Option GoError := none

/-- Whether the check of this probe returns (rather than panics) under this
context. -/
def noPanic (ctx : GoCtx) (p : Probe) : Bool :=
  match p.CheckFn ctx with
  | .ok _ => true
  | .panicked _ => false

/-- The error returned by a non-panicking check; the panicked branch is never
reached under a noPanic hypothesis and only keeps the function total. -/
def runCheck (ctx : GoCtx) (p : Probe) : Option GoError :=
  match p.CheckFn ctx with
  | .ok e => e
  | .panicked m => some m

/-- The result construction of one service.executeProbes goroutine, applied
to the error its check returned. -/
def mkResult (p : Probe) (err : Option GoError) : ExecutionResult :=
  match err with
  | some e => { Probe := { p with Health := UnhealthyStatus }, Err := some e }
  | none => { Probe := { p with Health := HealthyStatus }, Err := none }

/-- service.executeProbes (and executor.Execute) under Go panic semantics.
Neither function, nor any other code in the repository, calls recover, and
each check runs in its own spawned goroutine; a panic in a goroutine with no
recover on its stack aborts the program, so the round never yields its
result slice.  This is embedded by propagating the panic through the fold;
the first-panic-wins order is one schedule, and whether the outcome is ok at
all does not depend on the schedule. -/
def executeProbes (ctx : GoCtx) : List Probe → GoOutcome (List ExecutionResult)
  | [] => .ok []
  | p :: rest =>
    match p.CheckFn ctx with
    | .panicked m => .panicked m
    | .ok err =>
      match executeProbes ctx rest with
      | .panicked m => .panicked m
      | .ok rr => .ok (mkResult p err :: rr)

/-- A probe whose check raises an unexpected runtime fault. -/
def panickingProbe : Probe :=
  { CheckFn := fun _ => .panicked "unexpected runtime fault",
    Kind := LivenessProbeKind, Name := "panicky" }

/-- A probe whose check returns nil. -/
def npOkProbe : Probe :=
  { CheckFn := fun _ => .ok none, Kind := LivenessProbeKind, Name := "fine" }

/-- A probe whose check fails by returning an error, without panicking. -/
def npErrProbe : Probe :=
  { CheckFn := fun _ => .ok (some "boom"), Kind := LivenessProbeKind,
    Name := "errs" }

end V2Panic

/-- A context value for concrete rounds. -/
def ctx0 : GoCtx := {}

/-- The number of registry entries stored under a given name. -/
def countName (name : String) (s : V2.StoreMap) : Nat :=
  s.countP (fun e => e.1 == name)

/-- An informational-only probe whose check always fails (claim C4 input). -/
def c4probe : V1.Probe :=
  { checkFn := fun _ => some "boom", Kind := Liveness, Name := "p",
    IsInformationalOnly := true }

def c4result : V1.ExecutionResult := { Probe := c4probe, Err := "boom" }

/-- A failing, non-informational probe of the on-demand kind (claim C8
input). -/
def c8probe : V1.Probe :=
  { checkFn := fun _ => some "x", Kind := Health, Name := "q",
    IsInformationalOnly := false }

def c8result : V1.ExecutionResult := { Probe := c8probe, Err := "x" }

/-- An informational failing probe and a registry holding it. -/
def c8infoProbe : V1.Probe :=
  { checkFn := fun _ => some "y", Kind := Startup, Name := "s",
    IsInformationalOnly := true }

def c8infoResult : V1.ExecutionResult := { Probe := c8infoProbe, Err := "y" }

def c8reg : V1.Registry := [("s", c8infoProbe)]

/-- A liveness probe and the store holding only it (claim C3 input). -/
def c3probe : V2.Probe :=
  { CheckFn := fun _ => none, Kind := LivenessProbeKind, Name := "a" }

def c3store : V2.StoreMap := V2.Add [c3probe] V2.emptyStore

/-- Two probes sharing one name (claim C7 input). -/
def c7p1 : V2.Probe :=
  { CheckFn := fun _ => none, Kind := LivenessProbeKind, Name := "n" }

def c7p2 : V2.Probe :=
  { CheckFn := fun _ => some "second", Kind := ReadinessProbeKind, Name := "n" }

/-- A succeeding and a failing probe for concrete execution rounds. -/
def wProbeOk : V2.Probe :=
  { CheckFn := fun _ => none, Kind := LivenessProbeKind, Name := "ok" }

def wProbeBad : V2.Probe :=
  { CheckFn := fun _ => some "always fails", Kind := LivenessProbeKind,
    Name := "bad" }

theorem executionResultsLoop_hasErr (rr : List V1.ExecutionResult)
    (g : GaugeMap) (b : Bool) :
    (V1.executionResultsLoop rr g b).2 =
      (b || rr.any (fun r => r.Err != "" && !r.Probe.IsInformationalOnly)) := by
  induction rr generalizing g b with
  | nil => simp [V1.executionResultsLoop]
  | cons r rest ih =>
    simp only [V1.executionResultsLoop, List.any_cons]
    cases hE : r.Err != "" with
    | false => simp [hE, ih]
    | true =>
      cases hI : r.Probe.IsInformationalOnly with
      | false => simp [hE, hI, ih]
      | true => simp [hE, hI, ih]

theorem getProbesByKind_health_all (reg : V1.Registry) :
    V1.GetProbesByKind Health reg = reg.map (fun e => e.2) := by
  induction reg with
  | nil => rfl
  | cons e rest ih => simp [V1.GetProbesByKind, ih]

/-- Claim C1: in one execution round of a category the handler answers the
unhealthy outcome (HTTP 503) exactly when some result of a probe whose
informational flag is false carries a check failure; failing informational
probes alone never produce the unhealthy outcome. -/
theorem c1_unhealthy_iff_noninformational_failure (kind : ProbeKind)
    (rr : List V1.ExecutionResult) (g : GaugeMap) :
    (V1.executionResults kind rr g).status = some 503 ↔
      ∃ r ∈ rr, r.Err ≠ "" ∧ r.Probe.IsInformationalOnly = false := by
  have hloop := executionResultsLoop_hasErr rr g false
  rw [Bool.false_or] at hloop
  simp only [V1.executionResults]
  cases hA : rr.any (fun r => r.Err != "" && !r.Probe.IsInformationalOnly) with
  | true =>
    rw [hloop, hA]
    simp only [if_true]
    rcases List.any_eq_true.mp hA with ⟨r, hr, hpr⟩
    rw [Bool.and_eq_true, Bool.not_eq_true'] at hpr
    exact iff_of_true trivial ⟨r, hr, bne_iff_ne.mp hpr.1, hpr.2⟩
  | false =>
    rw [hloop, hA]
    simp only [Bool.false_eq_true, if_false]
    constructor
    · intro hcontra
      by_cases hk : (kind == Health) = true <;> simp [hk] at hcontra
    · rintro ⟨r, hr, hne, hinf⟩
      exfalso
      have : (fun r : V1.ExecutionResult =>
          r.Err != "" && !r.Probe.IsInformationalOnly) r = true := by
        rw [Bool.and_eq_true, Bool.not_eq_true']
        exact ⟨bne_iff_ne.mpr hne, hinf⟩
      have hA2 : rr.any
          (fun r => r.Err != "" && !r.Probe.IsInformationalOnly) = true :=
        List.any_eq_true.mpr ⟨r, hr, this⟩
      rw [hA] at hA2
      exact Bool.false_ne_true hA2

/-- Claim C4: evaluating handler.executionResults on a round whose only
result is a failing informational probe.  The loop first Sets the gauge for
(liveness, p) to 1 but then falls through past the inner if and Sets the same
gauge to 0, so after the round the gauge stands at 0, not at the unhealthy
value 1, while the aggregate outcome is the success response. -/
theorem c4_informational_failure_gauge_ends_at_zero :
    gaugeGet (Liveness, "p")
        (V1.executionResults Liveness [c4result] []).gauge = some 0 ∧
      (V1.executionResults Liveness [c4result] []).status = some 200 := by
  constructor <;> rfl

/-- Claim C8 counterexample: a Health round whose single probe fails
non-informationally.  handler.executionResults answers 503 and returns nil,
so handleHealth surfaces no per-probe result list at all, refuting the claim
that the full per-probe list is always surfaced for the on-demand category. -/
theorem c8_counterexample_failing_round_returns_nil :
    (V1.executionResults Health [c8result] []).ret = none ∧
      (V1.executionResults Health [c8result] []).status = some 503 := by
  constructor <;> rfl

/-- Claim C8 as amended: when the on-demand Health kind is queried, every
registered probe is selected regardless of its own kind, and whenever no
non-informational probe failed the handler returns the full per-probe result
list; if some non-informational probe fails, the handler answers 503 and
returns nil instead (see the counterexample). -/
theorem c8_amended_health_selects_all_and_surfaces_list_on_success
    (reg : V1.Registry) (rr : List V1.ExecutionResult) (g : GaugeMap)
    (h : ∀ r ∈ rr, r.Err ≠ "" → r.Probe.IsInformationalOnly = true) :
    V1.GetProbesByKind Health reg = reg.map (fun e => e.2) ∧
      (V1.executionResults Health rr g).ret = some rr := by
  refine ⟨getProbesByKind_health_all reg, ?_⟩
  have hA : rr.any (fun r => r.Err != "" && !r.Probe.IsInformationalOnly)
      = false := by
    rw [List.any_eq_false]
    intro r hr
    by_cases hE : r.Err = ""
    · simp [hE]
    · have hinf := h r hr hE
      simp [hinf]
  have hloop := executionResultsLoop_hasErr rr g false
  rw [Bool.false_or, hA] at hloop
  simp only [V1.executionResults]
  rw [hloop]
  simp

/-- Claim C8 witness: a concrete registry and a concrete round with one
failing informational probe. -/
theorem c8_amended_witness :
    V1.GetProbesByKind Health c8reg = c8reg.map (fun e => e.2) ∧
      (V1.executionResults Health [c8infoResult] []).ret =
        some [c8infoResult] :=
  c8_amended_health_selects_all_and_surfaces_list_on_success c8reg
    [c8infoResult] [] (by decide)

/-- Claim C3 counterexample: a store holding one liveness probe.  The store
level GetByKind, queried with the catch-all CustomProbeKind, filters strictly
by Kind and returns nothing, while GetAll shows one registered probe — so a
GetByKind lookup with the catch-all kind does not return every registered
probe. -/
theorem c3_counterexample_store_getbykind_catchall_empty :
    (V2.GetByKind CustomProbeKind c3store).length = 0 ∧
      (V2.GetAll c3store).length = 1 := by
  constructor <;> rfl

/-- Claim C3 as amended: the catch-all behavior lives one level above the
store.  service.ExecuteProbesByKind routes the catch-all CustomProbeKind to
GetAll, and the v1 handler GetProbesByKind returns every registered probe for
the Health kind; the store GetByKind itself only ever returns probes whose own
Kind equals the requested kind, with no catch-all case. -/
theorem c3_amended_catchall_at_service_level (s : V2.StoreMap)
    (reg : V1.Registry) (kind : ProbeKind) :
    V2.probesForKind CustomProbeKind s = V2.GetAll s ∧
      V1.GetProbesByKind Health reg = reg.map (fun e => e.2) ∧
      (V2.GetByKind kind s).all (fun p => p.Kind == kind) = true := by
  refine ⟨?_, getProbesByKind_health_all reg, ?_⟩
  · simp [V2.probesForKind]
  · rw [List.all_eq_true]
    intro p hp
    exact (List.mem_filter.mp hp).2

theorem countName_mapAssign_le_one (name k : String) (p : V2.Probe)
    (s : V2.StoreMap) (hs : countName name s ≤ 1) :
    countName name (V2.mapAssign k p s) ≤ 1 := by
  unfold countName V2.mapAssign
  rw [List.countP_append]
  by_cases hk : k = name
  · subst hk
    have h0 : (s.filter (fun e => !(e.1 == k))).countP
        (fun e => e.1 == k) = 0 := by
      rw [List.countP_eq_zero]
      intro e he
      have h1 := (List.mem_filter.mp he).2
      rw [Bool.not_eq_true'] at h1
      simp [h1]
    rw [h0]
    simp [List.countP_cons]
  · have h1 : ([(k, p)] : V2.StoreMap).countP (fun e => e.1 == name) = 0 := by
      simp [List.countP_cons, hk]
    rw [h1]
    have h2 : (s.filter (fun e => !(e.1 == k))).countP
          (fun e => e.1 == name) ≤ s.countP (fun e => e.1 == name) := by
      rw [List.countP_filter]
      exact List.countP_mono_left (fun e _ hb => (Bool.and_eq_true ..).mp hb |>.1)
    unfold countName at hs
    omega

theorem countName_add_le_one (ps : List V2.Probe) (s : V2.StoreMap)
    (name : String) (hs : countName name s ≤ 1) :
    countName name (V2.Add ps s) ≤ 1 := by
  induction ps generalizing s with
  | nil => exact hs
  | cons p rest ih =>
    exact ih (V2.mapAssign p.Name p s) (countName_mapAssign_le_one _ _ _ _ hs)

/-- Claim C7: after any sequence of Add operations starting from the fresh
store every name is held by at most one entry, and adding two probes that
share a name leaves exactly one entry for it, holding the second probe. -/
theorem c7_registry_last_write_wins (ps : List V2.Probe) (name : String)
    (p1 p2 : V2.Probe) (h : p1.Name = p2.Name) :
    countName name (V2.Add ps V2.emptyStore) ≤ 1 ∧
      V2.mapLookup p2.Name (V2.Add [p1, p2] V2.emptyStore) = some p2 ∧
      countName p2.Name (V2.Add [p1, p2] V2.emptyStore) = 1 := by
  have hbeq : (p1.Name == p2.Name) = true := by rw [h]; exact beq_self_eq_true _
  have hadd : V2.Add [p1, p2] V2.emptyStore = [(p2.Name, p2)] := by
    simp [V2.Add, V2.mapAssign, V2.emptyStore, List.filter, hbeq]
  refine ⟨countName_add_le_one ps V2.emptyStore name (by simp [countName, V2.emptyStore]), ?_, ?_⟩
  · rw [hadd]
    simp [V2.mapLookup]
  · rw [hadd]
    simp [countName, List.countP_cons]

/-- Claim C7 witness: two concrete probes named n; after adding both, the
store holds exactly the second under that name. -/
theorem c7_registry_last_write_wins_witness :
    countName "n" (V2.Add [c7p1, c7p2] V2.emptyStore) ≤ 1 ∧
      V2.mapLookup c7p2.Name (V2.Add [c7p1, c7p2] V2.emptyStore) = some c7p2 ∧
      countName c7p2.Name (V2.Add [c7p1, c7p2] V2.emptyStore) = 1 :=
  c7_registry_last_write_wins [c7p1, c7p2] "n" c7p1 c7p2 rfl

/-- Claim C9 counterexample: on the store, Get of the missing name missing
yields the zero-valued Probe — a fabricated probe value, not a distinguishable
absent result: the very same value Get yields after that zero probe really is
registered (Add performs no name validation), so absence and presence are
indistinguishable from the lookup result. -/
theorem c9_counterexample_store_get_fabricates_zero_probe :
    V2.mapLookup "missing" V2.emptyStore = none ∧
      V2.Get "missing" V2.emptyStore = V2.defaultProbe ∧
      V2.Get "" (V2.Add [V2.defaultProbe] V2.emptyStore) = V2.defaultProbe := by
  refine ⟨rfl, rfl, rfl⟩

/-- Claim C9 as amended: the handler GetProbe reports a missing name as nil
(a distinguishable not-found result), while the store Get returns the
zero-valued Probe for a missing name rather than an absence marker. -/
theorem c9_amended_handler_nil_store_zero_value (name : String)
    (reg : V1.Registry) (s : V2.StoreMap) :
    (V1.lookupProbe name reg = none → V1.GetProbe name reg = none) ∧
      (V2.mapLookup name s = none → V2.Get name s = V2.defaultProbe) := by
  constructor
  · intro h
    simp [V1.GetProbe, h]
  · intro h
    simp [V2.Get, h]

/-- Claim C9 witness: the name x is absent from the empty registry and the
empty store. -/
theorem c9_amended_witness :
    V1.GetProbe "x" [] = none ∧ V2.Get "x" [] = V2.defaultProbe :=
  ⟨(c9_amended_handler_nil_store_zero_value "x" [] []).1 rfl,
    (c9_amended_handler_nil_store_zero_value "x" [] []).2 rfl⟩

/-- Claim C2: for every context and every list of probes, any observable
output of the fan-out/fan-in execution — of executor.Execute as well as of
service.executeProbes — contains exactly one ExecutionResult per input probe,
whatever the individual checks return. -/
theorem c2_execute_cardinality (ctx : GoCtx) (probes : List V2.Probe)
    (out out2 : List V2.ExecutionResult) (h1 : V2.ExecuteRel ctx probes out)
    (h2 : V2.ExecuteProbesRel ctx probes out2) :
    out.length = probes.length ∧ out2.length = probes.length := by
  constructor
  · rw [h1.length_eq]
    simp [V2.Execute]
  · rw [h2.length_eq]
    simp [V2.executeProbes]

/-- Claim C2 witness: a concrete round with one succeeding and one failing
probe yields two results on both engines. -/
theorem c2_execute_cardinality_witness :
    (V2.Execute ctx0 [wProbeOk, wProbeBad]).length =
        ([wProbeOk, wProbeBad] : List V2.Probe).length ∧
      (V2.executeProbes ctx0 [wProbeOk, wProbeBad]).length =
        ([wProbeOk, wProbeBad] : List V2.Probe).length :=
  c2_execute_cardinality ctx0 [wProbeOk, wProbeBad] _ _ (List.Perm.refl _)
    (List.Perm.refl _)

/-- Claim C6: the selection for any kind on the empty store is empty, and an
execution round over the empty probe list can only produce the empty result
set, which the endpoint handler answers with the success response 204. -/
theorem c6_empty_round_healthy (kind : ProbeKind) (ctx : GoCtx)
    (out : List V2.ExecutionResult) (h : V2.ExecuteProbesRel ctx [] out) :
    V2.probesForKind kind V2.emptyStore = [] ∧ out = [] ∧
      getProbeExecutionFnStatus out = 204 := by
  have hout : out = [] := by
    have hlen := h.length_eq
    simp [V2.executeProbes] at hlen
    exact hlen
  refine ⟨?_, hout, ?_⟩
  · cases hk : kind == CustomProbeKind <;>
      simp [V2.probesForKind, hk, V2.GetByKind, V2.GetAll, V2.emptyStore]
  · rw [hout]
    rfl

/-- Claim C6 witness: the empty round for the readiness kind. -/
theorem c6_empty_round_healthy_witness :
    V2.probesForKind ReadinessProbeKind V2.emptyStore = [] ∧
      ([] : List V2.ExecutionResult) = [] ∧
      getProbeExecutionFnStatus [] = 204 :=
  c6_empty_round_healthy ReadinessProbeKind ctx0 [] (List.Perm.refl _)

/-- Claim C10: in every result of a service execution round the snapshot
Health field agrees with the error: UnhealthyStatus exactly on a non-nil
error and HealthyStatus exactly on a nil one. -/
theorem c10_health_consistent_with_error (ctx : GoCtx)
    (probes : List V2.Probe) (out : List V2.ExecutionResult)
    (h : V2.ExecuteProbesRel ctx probes out) :
    ∀ r ∈ out, (r.Probe.Health = UnhealthyStatus ↔ r.Err ≠ none) ∧
      (r.Probe.Health = HealthyStatus ↔ r.Err = none) := by
  intro r hr
  have hr2 : r ∈ V2.executeProbes ctx probes := h.mem_iff.mp hr
  rcases List.mem_map.mp hr2 with ⟨p, _, hpe⟩
  subst hpe
  unfold V2.executeProbesOne
  cases hc : p.Execute ctx with
  | none =>
    refine ⟨?_, ?_⟩ <;> simp [HealthyStatus, UnhealthyStatus]
  | some e =>
    refine ⟨?_, ?_⟩ <;> simp [HealthyStatus, UnhealthyStatus]

/-- Claim C10 witness: the round over one always-failing probe, observed in
the input-order schedule. -/
theorem c10_health_consistent_with_error_witness :
    ((V2.executeProbesOne ctx0 wProbeBad).Probe.Health = UnhealthyStatus ↔
        (V2.executeProbesOne ctx0 wProbeBad).Err ≠ none) ∧
      ((V2.executeProbesOne ctx0 wProbeBad).Probe.Health = HealthyStatus ↔
        (V2.executeProbesOne ctx0 wProbeBad).Err = none) :=
  c10_health_consistent_with_error ctx0 [wProbeBad]
    (V2.executeProbes ctx0 [wProbeBad]) (List.Perm.refl _)
    (V2.executeProbesOne ctx0 wProbeBad) (List.mem_singleton.mpr rfl)

/-- Claim C5 counterexample: a round whose single probe panics.  No recover
exists anywhere in the engine, so the unexpected runtime fault propagates out
of the execution instead of being converted into a failure result: the round
aborts without producing a result list. -/
theorem c5_counterexample_panic_propagates :
    V2Panic.executeProbes ctx0 [V2Panic.panickingProbe] =
      V2Panic.GoOutcome.panicked "unexpected runtime fault" := rfl

/-- Claim C5 as amended: a probe whose check fails by returning an error is
isolated — the round completes with exactly one result per probe, each result
a function of its own probe alone — but this holds only when no check panics;
the engine performs no panic recovery, so a panicking check propagates out of
the round (see the counterexample). -/
theorem c5_amended_error_isolation_without_panics (ctx : GoCtx)
    (probes : List V2Panic.Probe)
    (h : ∀ p ∈ probes, V2Panic.noPanic ctx p = true) :
    V2Panic.executeProbes ctx probes =
      V2Panic.GoOutcome.ok
        (probes.map (fun p => V2Panic.mkResult p (V2Panic.runCheck ctx p))) := by
  induction probes with
  | nil => rfl
  | cons p rest ih =>
    have hp := h p (List.mem_cons_self p rest)
    have hrest : ∀ q ∈ rest, V2Panic.noPanic ctx q = true :=
      fun q hq => h q (List.mem_cons_of_mem p hq)
    simp only [V2Panic.executeProbes]
    cases hc : p.CheckFn ctx with
    | panicked m =>
      exfalso
      unfold V2Panic.noPanic at hp
      rw [hc] at hp
      exact Bool.false_ne_true hp
    | ok errv =>
      rw [ih hrest]
      simp [V2Panic.runCheck, hc]

/-- Claim C5 witness: a concrete round of one succeeding and one
error-returning probe, neither of which panics, completes with both
results. -/
theorem c5_amended_error_isolation_witness :
    V2Panic.executeProbes ctx0 [V2Panic.npOkProbe, V2Panic.npErrProbe] =
      V2Panic.GoOutcome.ok
        (([V2Panic.npOkProbe, V2Panic.npErrProbe] : List V2Panic.Probe).map
          (fun p => V2Panic.mkResult p (V2Panic.runCheck ctx0 p))) :=
  c5_amended_error_isolation_without_panics ctx0
    [V2Panic.npOkProbe, V2Panic.npErrProbe] (by decide)
